import Mathlib

/-!
# Solana Web3 Portal: the `App` component of `src/App.js`

A shallow embedding of the single React component of the repository: its three state
cells (`walletAddress`, `inputValue`, `gifList`), its asynchronous handlers
(`checkIfWalletIsConnected`, `connectWallet`, `sendGif`, `getGifList`,
`createGifAccount`) and its render function.

Handlers are embedded as computations that produce the ordered list of observable
effects they perform (console output, alerts, wallet and RPC calls, state setter calls)
together with the way the `async` function settles (resolved or rejected).  The outcome
of every call into an external collaborator (the injected wallet, the RPC client) is
supplied by a `World`, so that every theorem quantifies over all behaviours of the
collaborators.
-/

namespace App

/-! ## Values -/

/-- A value thrown by JavaScript code or carried by a rejected promise. -/
structure JsError where
  message : String
  deriving DecidableEq, Repr

/-- A `PublicKey` of `@solana/web3.js`, identified by what `toString()` returns. -/
structure PublicKey where
  base58 : String
  deriving DecidableEq, Repr

/-- The method `publicKey.toString()`. -/
def PublicKey.toString (pk : PublicKey) : String := pk.base58

/-- A `web3.Keypair`: a public key and the secret key bytes it was built from. -/
structure Keypair where
  publicKey : PublicKey
  secretKey : List Nat
  deriving DecidableEq, Repr

/-- One element of the `gifList` vector of the on-chain account; the component reads only
its `gifLink` field. -/
structure Item where
  gifLink : String
  deriving DecidableEq, Repr

/-- The decoded account returned by `program.account.baseAccount.fetch`. -/
structure Account where
  gifList : List Item
  deriving DecidableEq, Repr

/-- The module-level constants of `App.js`.  `baseAccount` is built from `keypair.json`,
`programID` from `idl.json`, `network` is `clusterApiUrl("devnet")` and
`systemProgramId` is `SystemProgram.programId`; none of these files is part of the
sources, so the values are parameters. -/
structure Config where
  baseAccount : Keypair
  programID : PublicKey
  network : String
  systemProgramId : PublicKey
  deriving DecidableEq, Repr

/-- The constant `opts.preflightCommitment`. -/
def preflightCommitment : String := "processed"

/-! ## Component state -/

/-- The three `useState` cells of `App`.  `walletAddress` is `null` or a string,
`gifList` is `null` or an array of items. -/
structure State where
  walletAddress : Option String
  inputValue : String
  gifList : Option (List Item)
  deriving DecidableEq, Repr

/-- The initial values passed to `useState`: `null`, `""` and `[]`. -/
def initialState : State :=
  { walletAddress := none, inputValue := "", gifList := some [] }

/-- JavaScript truthiness of a value that is `null` or a string: `null` and the empty
string are falsy, every other string is truthy. -/
def truthy : Option String → Bool
  | none => false
  | some s => s.length != 0

/-! ## Effects -/

/-- An argument of a `console.log` or `console.error` call. -/
inductive LogArg where
  | str (s : String)
  | error (e : JsError)
  | account (a : Account)
  deriving DecidableEq, Repr

/-- The observable actions of the handlers, in the order in which they happen. -/
inductive Event where
  | consoleLog (args : List LogArg)
  | consoleError (args : List LogArg)
  | alert (msg : String)
  | walletConnect (onlyIfTrusted : Bool)
  | newConnection (network commitment : String)
  | newProvider (commitment : String)
  | newProgram (programID : PublicKey)
  | rpcAddGif (link : String) (baseAccount : PublicKey)
  | rpcStartStuffOff (baseAccount : PublicKey) (user : Option PublicKey)
      (systemProgram : PublicKey) (signers : List Keypair)
  | accountFetch (address : PublicKey)
  | setWalletAddress (v : String)
  | setInputValue (v : String)
  | setGifList (v : Option (List Item))
  deriving DecidableEq, Repr

/-- The result of running a piece of handler code: the effects performed so far and
either the value produced or the value thrown. -/
structure Eff (α : Type) where
  trace : List Event
  result : Except JsError α

namespace Eff

/-- Code that completes with `a` without any effect. -/
def ret {α : Type} (a : α) : Eff α := ⟨[], .ok a⟩

/-- Sequencing: when the first part throws, the rest does not run. -/
def andThen {α β : Type} (m : Eff α) (f : α → Eff β) : Eff β :=
  match m.result with
  | .error e => ⟨m.trace, .error e⟩
  | .ok a => ⟨m.trace ++ (f a).trace, (f a).result⟩

instance : Monad Eff where
  pure := ret
  bind := andThen

/-- A single effect that cannot fail. -/
def emit (ev : Event) : Eff Unit := ⟨[ev], .ok ()⟩

/-- The statement `throw e`. -/
def raise {α : Type} (e : JsError) : Eff α := ⟨[], .error e⟩

/-- An awaited call into an external collaborator: the call is recorded and settles with
the given outcome (a rejection is rethrown by `await`). -/
def call {α : Type} (ev : Event) (outcome : Except JsError α) : Eff α := ⟨[ev], outcome⟩

/-- The statement `try { body } catch (error) { handler error }`. -/
def tryCatch {α : Type} (body : Eff α) (handler : JsError → Eff α) : Eff α :=
  match body.result with
  | .ok a => ⟨body.trace, .ok a⟩
  | .error e => ⟨body.trace ++ (handler e).trace, (handler e).result⟩

end Eff

/-- The effect of one event on the state cells: only setter calls change them. -/
def applyEvent (s : State) : Event → State
  | .setWalletAddress v => { s with walletAddress := some v }
  | .setInputValue v => { s with inputValue := v }
  | .setGifList v => { s with gifList := v }
  | _ => s

/-- The state cells after the events of a trace, applied in order. -/
def stateAfter (s : State) (tr : List Event) : State := tr.foldl applyEvent s

/-! ## External collaborators -/

/-- The object `window.solana` injected by a wallet extension.  Each connect outcome is
either the public key of the response or the value with which the call fails. -/
structure Wallet where
  isPhantom : Bool
  publicKey : Option PublicKey
  connectTrusted : Except JsError PublicKey
  connectInteractive : Except JsError PublicKey

/-- Everything outside the component: the wallet object (absent when no extension is
installed) and the outcomes of the three remote operations of the program client. -/
structure World where
  solana : Option Wallet
  addGif : String → Except JsError Unit
  startStuffOff : Except JsError Unit
  fetch : Except JsError Account

/-- The `Provider` object built by `getProvider`. -/
structure Provider where
  network : String
  wallet : Option Wallet
  commitment : String

/-- The `TypeError` raised by reading a property of `undefined`. -/
def typeError (property : String) : JsError :=
  ⟨"TypeError: cannot read property " ++ property ++ " of undefined"⟩

/-! ## Handlers -/

open Eff

/-- The handler `checkIfWalletIsConnected` (lines 52-75). -/
def checkIfWalletIsConnected (w : World) : Eff Unit :=
  tryCatch
    (match w.solana with
     | some solana =>
       if solana.isPhantom then do
         emit (.consoleLog [.str "Phantom wallet found!"])
         let publicKey ← call (.walletConnect true) solana.connectTrusted
         emit (.consoleLog [.str "Connected with Public Key:", .str publicKey.toString])
         emit (.setWalletAddress publicKey.toString)
       else
         ret ()
     | none => emit (.alert "Solana object not found! Get a Phantom Wallet 👻"))
    (fun error => emit (.consoleError [.error error]))

/-- The handler `connectWallet` (lines 80-88); it has no `try`. -/
def connectWallet (w : World) : Eff Unit :=
  match w.solana with
  | some solana => do
    let publicKey ← call (.walletConnect false) solana.connectInteractive
    emit (.consoleLog [.str "Connected with Public Key:", .str publicKey.toString])
    emit (.setWalletAddress publicKey.toString)
  | none => ret ()

/-- The handler `onInputChange` (lines 93-96), applied to `event.target.value`. -/
def onInputChange (value : String) : Eff Unit :=
  emit (.setInputValue value)

/-- The function `getProvider` (lines 101-109). -/
def getProvider (cfg : Config) (w : World) : Eff Provider := do
  emit (.newConnection cfg.network preflightCommitment)
  emit (.newProvider preflightCommitment)
  ret { network := cfg.network, wallet := w.solana, commitment := preflightCommitment }

/-- The handler `getGifList` (lines 202-216). -/
def getGifList (cfg : Config) (w : World) : Eff Unit :=
  tryCatch
    (do
      let _provider ← getProvider cfg w
      emit (.newProgram cfg.programID)
      let account ← call (.accountFetch cfg.baseAccount.publicKey) w.fetch
      emit (.consoleLog [.str "Got the account", .account account])
      emit (.setGifList (some account.gifList)))
    (fun error => do
      emit (.consoleLog [.str "Error in getGifs: ", .error error])
      emit (.setGifList none))

/-- The handler `sendGif` (lines 111-132), run in a render whose `inputValue` is that of
`s`. -/
def sendGif (cfg : Config) (w : World) (s : State) : Eff Unit :=
  if s.inputValue.length = 0 then
    emit (.consoleLog [.str "No gif link given!"])
  else do
    emit (.consoleLog [.str "Gif link:", .str s.inputValue])
    tryCatch
      (do
        let _provider ← getProvider cfg w
        emit (.newProgram cfg.programID)
        call (.rpcAddGif s.inputValue cfg.baseAccount.publicKey) (w.addGif s.inputValue)
        emit (.consoleLog [.str "GIF sucesfully sent to program", .str s.inputValue])
        getGifList cfg w)
      (fun error => emit (.consoleLog [.str "Error sending GIF:", .error error]))

/-- The handler `createGifAccount` (lines 228-249).  The `user` account is read from
`provider.wallet`, which is `window.solana`. -/
def createGifAccount (cfg : Config) (w : World) : Eff Unit :=
  tryCatch
    (do
      let provider ← getProvider cfg w
      emit (.newProgram cfg.programID)
      emit (.consoleLog [.str "ping"])
      let user ← (match provider.wallet with
        | some wallet => ret wallet.publicKey
        | none => raise (typeError "publicKey"))
      call (.rpcStartStuffOff cfg.baseAccount.publicKey user cfg.systemProgramId
        [cfg.baseAccount]) w.startStuffOff
      emit (.consoleLog [.str "Created a new BaseAccount w/ address:",
        .str cfg.baseAccount.publicKey.toString])
      getGifList cfg w)
    (fun error => emit (.consoleLog [.str "Error creating BaseAccount account:", .error error]))

/-! ## Rendering -/

/-- The handlers that the rendered elements refer to. -/
inductive Handler where
  | connectWallet
  | createGifAccount
  | sendGif
  | onInputChange
  deriving DecidableEq, Repr

/-- A `<button>` element. -/
structure Button where
  className : String
  onClick : Handler
  label : String
  deriving DecidableEq, Repr

/-- The `<input>` element of the list screen. -/
structure Input where
  type : String
  placeholder : String
  value : String
  onChange : Handler
  deriving DecidableEq, Repr

/-- One `<div className="gif-item" key=...><img src=... alt="" /></div>`. -/
structure GifItem where
  className : String
  key : Nat
  src : String
  alt : String
  deriving DecidableEq, Repr

/-- The two shapes of `<div className="connected-container">` that
`renderConnectedContainer` returns. -/
inductive ConnectedContainer where
  | init (className : String) (button : Button)
  | list (className : String) (input : Input) (submit : Button) (gridClassName : String)
      (items : List GifItem)
  deriving DecidableEq, Repr

/-- The state-dependent part of the element returned by `App`: the class of the outer
container and the two conditional children of the header container.  A child is `none`
when its JSX expression evaluates to `false`, `null` or `""`, which React does not
render.  The static header and footer are left out. -/
structure AppView where
  containerClass : String
  notConnected : Option Button
  connected : Option ConnectedContainer
  deriving DecidableEq, Repr

/-- The function `renderNotConnectedContainer` (lines 138-145). -/
def renderNotConnectedContainer : Button :=
  { className := "cta-button connect-wallet-button", onClick := .connectWallet,
    label := "Connect to Wallet" }

/-- The function `renderConnectedContainer` (lines 151-189).  It is only called with a
`gifList` that is `null` or an array. -/
def renderConnectedContainer (s : State) : ConnectedContainer :=
  match s.gifList with
  | none =>
    .init "connected-container"
      { className := "cta-button submit-gif-button", onClick := .createGifAccount,
        label := "Do One-Time Initialization For GIF Program Account" }
  | some gifList =>
    .list "connected-container"
      { type := "text", placeholder := "Enter gif link!", value := s.inputValue,
        onChange := .onInputChange }
      { className := "cta-button submit-gif-button", onClick := .sendGif, label := "Submit" }
      "gif-grid"
      (gifList.mapIdx fun index item =>
        { className := "gif-item", key := index, src := item.gifLink, alt := "" })

/-- The state-dependent part of the value returned by `App` (lines 251-282). -/
def render (s : State) : AppView :=
  { containerClass := if truthy s.walletAddress then "authed-container" else "container"
    notConnected := if !truthy s.walletAddress then some renderNotConnectedContainer else none
    connected := if truthy s.walletAddress then some (renderConnectedContainer s) else none }

/-! ## The three screens -/

/-- The disconnected screen: a single button bound to `connectWallet` and no connected
container, hence no input, no entries and no other button. -/
def AppView.isDisconnectedScreen (v : AppView) : Bool :=
  v.connected == none &&
  match v.notConnected with
  | some button => button.onClick == .connectWallet
  | none => false

/-- The screen that offers the one-time account creation: a single button bound to
`createGifAccount`, no input and no entries. -/
def AppView.isInitScreen (v : AppView) : Bool :=
  v.notConnected == none &&
  match v.connected with
  | some (.init _ button) => button.onClick == .createGifAccount
  | _ => false

/-- The list screen: an input, a submit button bound to `sendGif` and the entry grid. -/
def AppView.isListScreen (v : AppView) : Bool :=
  v.notConnected == none &&
  match v.connected with
  | some (.list _ input submit _ _) =>
    input.onChange == .onInputChange && submit.onClick == .sendGif
  | _ => false

/-- The handlers reachable by a click on the rendered view. -/
def AppView.clickHandlers (v : AppView) : List Handler :=
  (match v.notConnected with
   | some button => [button.onClick]
   | none => []) ++
  (match v.connected with
   | some (.init _ button) => [button.onClick]
   | some (.list _ _ submit _ _) => [submit.onClick]
   | none => [])

/-- The entry containers of a view, in document order. -/
def AppView.entries (v : AppView) : List GifItem :=
  match v.connected with
  | some (.list _ _ _ _ items) => items
  | _ => []

/-- The view has an input element. -/
def AppView.hasInput (v : AppView) : Bool :=
  match v.connected with
  | some (.list _ _ _ _ _) => true
  | _ => false

/-! ## Observations on traces -/

/-- Calls that reach the remote program: the two RPC methods and the account read. -/
def Event.isRemoteCall : Event → Bool
  | .rpcAddGif _ _ => true
  | .rpcStartStuffOff _ _ _ _ => true
  | .accountFetch _ => true
  | _ => false

/-- Construction of a connection, a provider or a program client. -/
def Event.isClientBuild : Event → Bool
  | .newConnection _ _ => true
  | .newProvider _ => true
  | .newProgram _ => true
  | _ => false

/-- Calls of one of the three state setters. -/
def Event.isSetter : Event → Bool
  | .setWalletAddress _ => true
  | .setInputValue _ => true
  | .setGifList _ => true
  | _ => false

/-- Calls of `alert`. -/
def Event.isAlert : Event → Bool
  | .alert _ => true
  | _ => false

/-- Calls of `console.log` or `console.error`. -/
def Event.isConsole : Event → Bool
  | .consoleLog _ => true
  | .consoleError _ => true
  | _ => false

/-- The remote calls of a trace, in order. -/
def remoteCalls (tr : List Event) : List Event := tr.filter Event.isRemoteCall

/-- What `getGifList` stores in `gifList` for a given outcome of the account read. -/
def fetchedList : Except JsError Account → Option (List Item)
  | .ok account => some account.gifList
  | .error _ => none

/-! ## Concrete inputs -/

/-- A configuration with recognisable constants. -/
def sampleConfig : Config :=
  { baseAccount := { publicKey := ⟨"BaseAcc"⟩, secretKey := [1, 2, 3] }
    programID := ⟨"ProgId"⟩
    network := "https://api.devnet.solana.com"
    systemProgramId := ⟨"11111111111111111111111111111111"⟩ }

/-- A Phantom wallet that has trusted the site and approves every connect. -/
def trustedWallet : Wallet :=
  { isPhantom := true, publicKey := some ⟨"9xQe"⟩
    connectTrusted := .ok ⟨"9xQe"⟩, connectInteractive := .ok ⟨"9xQe"⟩ }

/-- A Phantom wallet whose user declines the connect prompt. -/
def decliningWallet : Wallet :=
  { isPhantom := true, publicKey := none
    connectTrusted := .error ⟨"User rejected the request."⟩
    connectInteractive := .error ⟨"User rejected the request."⟩ }

/-- A world in which every remote operation succeeds and the account holds two items. -/
def healthyWorld : World :=
  { solana := some trustedWallet
    addGif := fun _ => .ok ()
    startStuffOff := .ok ()
    fetch := .ok ⟨[⟨"a.gif"⟩, ⟨"b.gif"⟩]⟩ }

/-- A world in which both RPC methods are rejected while the account can be read. -/
def rejectingWorld : World :=
  { solana := some trustedWallet
    addGif := fun _ => .error ⟨"Transaction simulation failed"⟩
    startStuffOff := .error ⟨"Transaction simulation failed"⟩
    fetch := .ok ⟨[⟨"a.gif"⟩]⟩ }

/-- A world in which the account does not exist yet. -/
def missingAccountWorld : World :=
  { solana := some trustedWallet
    addGif := fun _ => .ok ()
    startStuffOff := .ok ()
    fetch := .error ⟨"Account does not exist"⟩ }

/-- A world in which the account read fails in transit. -/
def offlineWorld : World :=
  { solana := some trustedWallet
    addGif := fun _ => .ok ()
    startStuffOff := .ok ()
    fetch := .error ⟨"Network request failed"⟩ }

/-- A world whose wallet declines to connect. -/
def decliningWorld : World :=
  { solana := some decliningWallet
    addGif := fun _ => .ok ()
    startStuffOff := .ok ()
    fetch := .ok ⟨[]⟩ }

/-- A connected state with one displayed item and the draft `c.gif`. -/
def draftState : State :=
  { walletAddress := some "9xQe", inputValue := "c.gif", gifList := some [⟨"a.gif"⟩] }

/-! ## Basic facts about the effect embedding -/

@[simp] theorem Eff.bind_eq {α β : Type} (m : Eff α) (f : α → Eff β) :
    (m >>= f) = Eff.andThen m f := rfl

@[simp] theorem Eff.pure_eq {α : Type} (a : α) : (pure a : Eff α) = Eff.ret a := rfl

/-! ## The trace of each handler, case by case -/

theorem getGifList_trace_ok (cfg : Config) (w : World) (account : Account)
    (h : w.fetch = .ok account) :
    getGifList cfg w =
      ⟨[.newConnection cfg.network preflightCommitment, .newProvider preflightCommitment,
        .newProgram cfg.programID, .accountFetch cfg.baseAccount.publicKey,
        .consoleLog [.str "Got the account", .account account],
        .setGifList (some account.gifList)], .ok ()⟩ := by
  simp [getGifList, getProvider, Eff.tryCatch, Eff.andThen, Eff.emit, Eff.call, Eff.ret, h]

theorem getGifList_trace_error (cfg : Config) (w : World) (e : JsError)
    (h : w.fetch = .error e) :
    getGifList cfg w =
      ⟨[.newConnection cfg.network preflightCommitment, .newProvider preflightCommitment,
        .newProgram cfg.programID, .accountFetch cfg.baseAccount.publicKey,
        .consoleLog [.str "Error in getGifs: ", .error e],
        .setGifList none], .ok ()⟩ := by
  simp [getGifList, getProvider, Eff.tryCatch, Eff.andThen, Eff.emit, Eff.call, Eff.ret, h]

/-- The handler `getGifList` always resolves, and its trace has the same shape for every
outcome of the read: client construction, the read, one log line, one `setGifList`. -/
theorem getGifList_trace_shape (cfg : Config) (w : World) :
    ∃ logged : List LogArg,
      getGifList cfg w =
        ⟨[.newConnection cfg.network preflightCommitment, .newProvider preflightCommitment,
          .newProgram cfg.programID, .accountFetch cfg.baseAccount.publicKey,
          .consoleLog logged, .setGifList (fetchedList w.fetch)], .ok ()⟩ := by
  cases h : w.fetch with
  | ok account => exact ⟨_, by rw [getGifList_trace_ok cfg w account h]; rfl⟩
  | error e => exact ⟨_, by rw [getGifList_trace_error cfg w e h]; rfl⟩

/-! ## Rendering -/

/-- C1: for every state the view is exactly one of the three screens; it is the
disconnected screen exactly when `walletAddress` is falsy (in particular when it is
`null`), whatever `gifList` is; the account-creation screen, which has a single button and
neither input nor entries, exactly when `walletAddress` is truthy and `gifList` is `null`;
the list screen exactly when `walletAddress` is truthy and `gifList` is an array.  The
`createGifAccount` handler is reachable exactly on the account-creation screen.  The
disconnected screen consists of the button labelled `Connect to Wallet` bound to
`connectWallet`, the account-creation screen of the button labelled
`Do One-Time Initialization For GIF Program Account` bound to `createGifAccount`, and the
list screen has the input and a submit button bound to `sendGif`. -/
theorem render_three_screens (s : State) :
    (render s).isDisconnectedScreen = !truthy s.walletAddress ∧
    (render s).isInitScreen = (truthy s.walletAddress && s.gifList.isNone) ∧
    (render s).isListScreen = (truthy s.walletAddress && s.gifList.isSome) ∧
    [(render s).isDisconnectedScreen, (render s).isInitScreen,
      (render s).isListScreen].count true = 1 ∧
    (s.walletAddress = none → (render s).isDisconnectedScreen = true) ∧
    ((render s).isInitScreen = true →
      (render s).hasInput = false ∧ (render s).entries = [] ∧
      (render s).clickHandlers = [.createGifAccount]) ∧
    ((render s).clickHandlers.contains .createGifAccount = (render s).isInitScreen) ∧
    ((render s).isDisconnectedScreen = true →
      (render s).notConnected =
        some { className := "cta-button connect-wallet-button", onClick := .connectWallet,
               label := "Connect to Wallet" } ∧
      (render s).connected = none ∧
      (render s).clickHandlers = [.connectWallet] ∧
      (render s).hasInput = false ∧ (render s).entries = []) ∧
    ((render s).isInitScreen = true →
      (render s).connected =
        some (.init "connected-container"
          { className := "cta-button submit-gif-button", onClick := .createGifAccount,
            label := "Do One-Time Initialization For GIF Program Account" })) ∧
    ((render s).isListScreen = true →
      (render s).hasInput = true ∧ (render s).clickHandlers = [.sendGif]) := by
  rcases s with ⟨wallet, input, gifs⟩
  have key : truthy wallet = true ∨ truthy wallet = false := by
    cases truthy wallet <;> simp
  rcases key with h | h <;> cases gifs <;> cases wallet <;>
    simp_all [render, renderConnectedContainer, renderNotConnectedContainer,
      AppView.isDisconnectedScreen, AppView.isInitScreen, AppView.isListScreen,
      AppView.hasInput, AppView.entries, AppView.clickHandlers, truthy]

/-- The three screens at concrete states: the initial state shows the connect button and
nothing else, a connected wallet with `gifList = null` shows only the account-creation
button, a connected wallet with an empty list shows the input and the submit button. -/
theorem render_three_screens_witness :
    (render initialState).isDisconnectedScreen = true ∧
    ((render ⟨some "9xQe", "", none⟩).hasInput = false ∧
      (render ⟨some "9xQe", "", none⟩).entries = [] ∧
      (render ⟨some "9xQe", "", none⟩).clickHandlers = [.createGifAccount]) ∧
    ((render initialState).notConnected =
        some { className := "cta-button connect-wallet-button", onClick := .connectWallet,
               label := "Connect to Wallet" } ∧
      (render initialState).connected = none ∧
      (render initialState).clickHandlers = [.connectWallet] ∧
      (render initialState).hasInput = false ∧ (render initialState).entries = []) ∧
    (render ⟨some "9xQe", "", none⟩).connected =
        some (.init "connected-container"
          { className := "cta-button submit-gif-button", onClick := .createGifAccount,
            label := "Do One-Time Initialization For GIF Program Account" }) ∧
    ((render ⟨some "9xQe", "", some []⟩).hasInput = true ∧
      (render ⟨some "9xQe", "", some []⟩).clickHandlers = [.sendGif]) :=
  ⟨(render_three_screens initialState).2.2.2.2.1 rfl,
   (render_three_screens ⟨some "9xQe", "", none⟩).2.2.2.2.2.1 (by decide),
   (render_three_screens initialState).2.2.2.2.2.2.2.1 (by decide),
   (render_three_screens ⟨some "9xQe", "", none⟩).2.2.2.2.2.2.2.2.1 (by decide),
   (render_three_screens ⟨some "9xQe", "", some []⟩).2.2.2.2.2.2.2.2.2 (by decide)⟩

/-- C2: when `walletAddress` is truthy and `gifList` is an array of `N` items, the view
has exactly `N` entry containers, and the `i`-th container carries key `i` and the
`gifLink` of the `i`-th item as image source. -/
theorem render_entries (s : State) (gifList : List Item)
    (hw : truthy s.walletAddress = true) (hl : s.gifList = some gifList) :
    (render s).isListScreen = true ∧
    (render s).entries.length = gifList.length ∧
    (render s).entries.map (fun entry => entry.src) = gifList.map (fun item => item.gifLink) ∧
    ∀ i : Nat, ∀ hi : i < gifList.length,
      (render s).entries[i]? =
        some { className := "gif-item", key := i, src := (gifList.get ⟨i, hi⟩).gifLink,
               alt := "" } := by
  rcases s with ⟨wallet, input, gifs⟩
  simp only at hw hl
  subst hl
  refine ⟨?_, ?_, ?_, ?_⟩
  · simp [render, renderConnectedContainer, AppView.isListScreen, hw]
  · simp [render, renderConnectedContainer, AppView.entries, hw]
  · simp only [render, renderConnectedContainer, AppView.entries, hw, if_true]
    apply List.ext_getElem <;> simp
  · intro i hi
    simp [render, renderConnectedContainer, AppView.entries, hw, List.getElem?_eq_getElem hi]

/-- The scenario of two entries `a.gif`, `b.gif`: two containers, `a.gif` first. -/
theorem render_entries_witness :
    (render ⟨some "9xQe", "", some [⟨"a.gif"⟩, ⟨"b.gif"⟩]⟩).entries.map (fun entry => entry.src)
      = ["a.gif", "b.gif"] :=
  (render_entries ⟨some "9xQe", "", some [⟨"a.gif"⟩, ⟨"b.gif"⟩]⟩ [⟨"a.gif"⟩, ⟨"b.gif"⟩]
    (by decide) rfl).2.2.1

/-! ## Submitting a link -/

theorem length_eq_zero_iff (t : String) : t.length = 0 ↔ t = "" := by
  constructor
  · intro h
    cases t with
    | mk data =>
      have hdata : data = [] := List.length_eq_zero.1 h
      subst hdata
      rfl
  · rintro rfl
    rfl

theorem sendGif_trace_empty (cfg : Config) (w : World) (s : State) (h : s.inputValue = "") :
    sendGif cfg w s = ⟨[.consoleLog [.str "No gif link given!"]], .ok ()⟩ := by
  simp [sendGif, h, Eff.emit]

theorem sendGif_trace_rejected (cfg : Config) (w : World) (s : State) (e : JsError)
    (hd : s.inputValue ≠ "") (ha : w.addGif s.inputValue = .error e) :
    sendGif cfg w s =
      ⟨[.consoleLog [.str "Gif link:", .str s.inputValue],
        .newConnection cfg.network preflightCommitment, .newProvider preflightCommitment,
        .newProgram cfg.programID, .rpcAddGif s.inputValue cfg.baseAccount.publicKey,
        .consoleLog [.str "Error sending GIF:", .error e]], .ok ()⟩ := by
  have hlen : ¬ s.inputValue.length = 0 := fun h => hd ((length_eq_zero_iff _).1 h)
  simp [sendGif, hlen, getProvider, Eff.tryCatch, Eff.andThen, Eff.emit, Eff.call, Eff.ret, ha]

theorem sendGif_trace_accepted (cfg : Config) (w : World) (s : State)
    (hd : s.inputValue ≠ "") (ha : w.addGif s.inputValue = .ok ()) :
    ∃ logged : List LogArg,
      sendGif cfg w s =
        ⟨[.consoleLog [.str "Gif link:", .str s.inputValue],
          .newConnection cfg.network preflightCommitment, .newProvider preflightCommitment,
          .newProgram cfg.programID, .rpcAddGif s.inputValue cfg.baseAccount.publicKey,
          .consoleLog [.str "GIF sucesfully sent to program", .str s.inputValue],
          .newConnection cfg.network preflightCommitment, .newProvider preflightCommitment,
          .newProgram cfg.programID, .accountFetch cfg.baseAccount.publicKey,
          .consoleLog logged, .setGifList (fetchedList w.fetch)], .ok ()⟩ := by
  have hlen : ¬ s.inputValue.length = 0 := fun h => hd ((length_eq_zero_iff _).1 h)
  obtain ⟨logged, hg⟩ := getGifList_trace_shape cfg w
  refine ⟨logged, ?_⟩
  simp [sendGif, hlen, hg, getProvider, Eff.tryCatch, Eff.andThen, Eff.emit, Eff.call,
    Eff.ret, ha]

/-- C3: with an empty draft `sendGif` only writes one console line: it makes no remote
call, builds no client, calls no setter, leaves the three state cells as they were and
resolves. -/
theorem sendGif_empty_draft (cfg : Config) (w : World) (s : State)
    (h : s.inputValue = "") :
    remoteCalls (sendGif cfg w s).trace = [] ∧
    (sendGif cfg w s).trace.filter Event.isClientBuild = [] ∧
    (sendGif cfg w s).trace.filter Event.isSetter = [] ∧
    stateAfter s (sendGif cfg w s).trace = s ∧
    (sendGif cfg w s).result = .ok () := by
  rw [sendGif_trace_empty cfg w s h]
  simp [remoteCalls, Event.isRemoteCall, Event.isClientBuild, Event.isSetter, stateAfter,
    applyEvent]

/-- From the initial state, whose draft is empty, a submit reaches no collaborator. -/
theorem sendGif_empty_draft_witness :
    remoteCalls (sendGif sampleConfig healthyWorld initialState).trace = [] ∧
    stateAfter initialState (sendGif sampleConfig healthyWorld initialState).trace
      = initialState :=
  ⟨(sendGif_empty_draft sampleConfig healthyWorld initialState rfl).1,
   (sendGif_empty_draft sampleConfig healthyWorld initialState rfl).2.2.2.1⟩

/-- C4: with a non-empty draft and an accepted `addGif`, the remote calls of `sendGif` are
exactly one `addGif` carrying the draft and the fixed base account followed by exactly one
account read; wherever the trace is cut at that read, the `addGif` call lies before the
cut and the state cells up to and including the read are unchanged; at the end `gifList`
is what the read produced (the fetched sequence, or `null` when the read failed) and the
other cells are unchanged. -/
theorem sendGif_success (cfg : Config) (w : World) (s : State)
    (hd : s.inputValue ≠ "") (ha : w.addGif s.inputValue = .ok ()) :
    remoteCalls (sendGif cfg w s).trace =
      [.rpcAddGif s.inputValue cfg.baseAccount.publicKey,
       .accountFetch cfg.baseAccount.publicKey] ∧
    (∀ before after : List Event,
      (sendGif cfg w s).trace = before ++ .accountFetch cfg.baseAccount.publicKey :: after →
        Event.rpcAddGif s.inputValue cfg.baseAccount.publicKey ∈ before ∧
        stateAfter s (before ++ [.accountFetch cfg.baseAccount.publicKey]) = s) ∧
    stateAfter s (sendGif cfg w s).trace = { s with gifList := fetchedList w.fetch } ∧
    (sendGif cfg w s).result = .ok () := by
  obtain ⟨logged, hs⟩ := sendGif_trace_accepted cfg w s hd ha
  rw [hs]
  refine ⟨by simp [remoteCalls, Event.isRemoteCall], ?_, by simp [stateAfter, applyEvent], rfl⟩
  intro before after hsplit
  have hcut :
      [Event.consoleLog [.str "Gif link:", .str s.inputValue],
        .newConnection cfg.network preflightCommitment, .newProvider preflightCommitment,
        .newProgram cfg.programID, .rpcAddGif s.inputValue cfg.baseAccount.publicKey,
        .consoleLog [.str "GIF sucesfully sent to program", .str s.inputValue],
        .newConnection cfg.network preflightCommitment, .newProvider preflightCommitment,
        .newProgram cfg.programID] ++
        .accountFetch cfg.baseAccount.publicKey ::
          [.consoleLog logged, .setGifList (fetchedList w.fetch)]
      = before ++ .accountFetch cfg.baseAccount.publicKey :: after := by
    simpa using hsplit
  obtain ⟨hb, -, -⟩ :=
    (List.append_cons_inj_of_not_mem (by simp) (by simp)).1 hcut
  subst hb
  simp [stateAfter, applyEvent]

/-- A submit of `c.gif` in a healthy world replaces the displayed list by the fetched
one. -/
theorem sendGif_success_witness :
    remoteCalls (sendGif sampleConfig healthyWorld draftState).trace =
      [.rpcAddGif "c.gif" ⟨"BaseAcc"⟩, .accountFetch ⟨"BaseAcc"⟩] ∧
    stateAfter draftState (sendGif sampleConfig healthyWorld draftState).trace =
      { draftState with gifList := some [⟨"a.gif"⟩, ⟨"b.gif"⟩] } :=
  ⟨(sendGif_success sampleConfig healthyWorld draftState (by decide) rfl).1,
   (sendGif_success sampleConfig healthyWorld draftState (by decide) rfl).2.2.1⟩

/-- C5, as the code has it: with a non-empty draft `sendGif` makes one `addGif` call
carrying the draft and the fixed base account; the account read follows when that call is
accepted, and no account read is made when it is rejected. -/
theorem sendGif_remote_calls (cfg : Config) (w : World) (s : State)
    (hd : s.inputValue ≠ "") :
    remoteCalls (sendGif cfg w s).trace =
      .rpcAddGif s.inputValue cfg.baseAccount.publicKey ::
        (match w.addGif s.inputValue with
         | .ok _ => [.accountFetch cfg.baseAccount.publicKey]
         | .error _ => []) := by
  cases ha : w.addGif s.inputValue with
  | ok u =>
    obtain ⟨logged, hs⟩ := sendGif_trace_accepted cfg w s hd ha
    rw [hs]
    simp [remoteCalls, Event.isRemoteCall]
  | error e =>
    rw [sendGif_trace_rejected cfg w s e hd ha]
    simp [remoteCalls, Event.isRemoteCall]

/-- An accepted submit is followed by the account read. -/
theorem sendGif_remote_calls_witness :
    remoteCalls (sendGif sampleConfig healthyWorld draftState).trace =
      [.rpcAddGif "c.gif" ⟨"BaseAcc"⟩, .accountFetch ⟨"BaseAcc"⟩] :=
  sendGif_remote_calls sampleConfig healthyWorld draftState (by decide)

/-- C5 as written fails: with the draft `c.gif` and a rejected `addGif`, the `addGif` call
is the only remote call of `sendGif`; no account read follows it. -/
theorem sendGif_rejected_makes_no_fetch :
    draftState.inputValue ≠ "" ∧
    remoteCalls (sendGif sampleConfig rejectingWorld draftState).trace =
      [.rpcAddGif "c.gif" ⟨"BaseAcc"⟩] ∧
    Event.accountFetch sampleConfig.baseAccount.publicKey ∉
      (sendGif sampleConfig rejectingWorld draftState).trace := by
  refine ⟨by decide, ?_, ?_⟩ <;>
    rw [sendGif_trace_rejected sampleConfig rejectingWorld draftState
      ⟨"Transaction simulation failed"⟩ (by decide) rfl] <;>
    simp [remoteCalls, Event.isRemoteCall, draftState, sampleConfig]

/-- C10: with a non-empty draft and a rejected `addGif`, `sendGif` calls no setter, so the
three state cells keep their values, and it resolves; and for every outcome of the remote
calls `sendGif` never calls `setInputValue`, leaves `inputValue` and `walletAddress`
unchanged and resolves. -/
theorem sendGif_failure_frame (cfg : Config) (w : World) (s : State) :
    (∀ e : JsError, s.inputValue ≠ "" → w.addGif s.inputValue = .error e →
      (sendGif cfg w s).trace.filter Event.isSetter = [] ∧
      stateAfter s (sendGif cfg w s).trace = s ∧
      (sendGif cfg w s).result = .ok ()) ∧
    (∀ v : String, Event.setInputValue v ∉ (sendGif cfg w s).trace) ∧
    (stateAfter s (sendGif cfg w s).trace).inputValue = s.inputValue ∧
    (stateAfter s (sendGif cfg w s).trace).walletAddress = s.walletAddress ∧
    (sendGif cfg w s).result = .ok () := by
  refine ⟨?_, ?_⟩
  · intro e hd ha
    rw [sendGif_trace_rejected cfg w s e hd ha]
    simp [Event.isSetter, stateAfter, applyEvent]
  · by_cases hd : s.inputValue = ""
    · rw [sendGif_trace_empty cfg w s hd]
      simp [stateAfter, applyEvent]
    · cases ha : w.addGif s.inputValue with
      | ok u =>
        obtain ⟨logged, hs⟩ := sendGif_trace_accepted cfg w s hd ha
        rw [hs]
        simp [stateAfter, applyEvent]
      | error e =>
        rw [sendGif_trace_rejected cfg w s e hd ha]
        simp [stateAfter, applyEvent]

/-- A rejected submit of `c.gif` leaves the draft and the displayed list in place. -/
theorem sendGif_failure_frame_witness :
    stateAfter draftState (sendGif sampleConfig rejectingWorld draftState).trace = draftState ∧
    (sendGif sampleConfig rejectingWorld draftState).result = .ok () :=
  ⟨((sendGif_failure_frame sampleConfig rejectingWorld draftState).1
      ⟨"Transaction simulation failed"⟩ (by decide) rfl).2.1,
   ((sendGif_failure_frame sampleConfig rejectingWorld draftState).1
      ⟨"Transaction simulation failed"⟩ (by decide) rfl).2.2⟩

/-! ## Reading the list -/

/-- C6: `getGifList` resolves and changes only `gifList`: to the sequence of the fetched
account when the read succeeds and to `null` when it fails; two failing reads, whatever
their errors, lead from the same state to the same state. -/
theorem getGifList_state (cfg : Config) (w : World) (s : State) :
    (∀ account : Account, w.fetch = .ok account →
      stateAfter s (getGifList cfg w).trace = { s with gifList := some account.gifList }) ∧
    (∀ e : JsError, w.fetch = .error e →
      stateAfter s (getGifList cfg w).trace = { s with gifList := none }) ∧
    (∀ (w2 : World) (e1 e2 : JsError), w.fetch = .error e1 → w2.fetch = .error e2 →
      stateAfter s (getGifList cfg w).trace = stateAfter s (getGifList cfg w2).trace) ∧
    (stateAfter s (getGifList cfg w).trace).walletAddress = s.walletAddress ∧
    (stateAfter s (getGifList cfg w).trace).inputValue = s.inputValue ∧
    (getGifList cfg w).result = .ok () := by
  refine ⟨?_, ?_, ?_, ?_⟩
  · intro account h
    rw [getGifList_trace_ok cfg w account h]
    simp [stateAfter, applyEvent]
  · intro e h
    rw [getGifList_trace_error cfg w e h]
    simp [stateAfter, applyEvent]
  · intro w2 e1 e2 h1 h2
    rw [getGifList_trace_error cfg w e1 h1, getGifList_trace_error cfg w2 e2 h2]
    simp [stateAfter, applyEvent]
  · obtain ⟨logged, hg⟩ := getGifList_trace_shape cfg w
    rw [hg]
    simp [stateAfter, applyEvent]

/-- A missing account and a network failure both leave `gifList = null`; a successful
read stores the two fetched items. -/
theorem getGifList_state_witness :
    stateAfter draftState (getGifList sampleConfig healthyWorld).trace =
      { draftState with gifList := some [⟨"a.gif"⟩, ⟨"b.gif"⟩] } ∧
    stateAfter draftState (getGifList sampleConfig missingAccountWorld).trace =
      { draftState with gifList := none } ∧
    stateAfter draftState (getGifList sampleConfig missingAccountWorld).trace =
      stateAfter draftState (getGifList sampleConfig offlineWorld).trace :=
  ⟨(getGifList_state sampleConfig healthyWorld draftState).1 _ rfl,
   (getGifList_state sampleConfig missingAccountWorld draftState).2.1 _ rfl,
   (getGifList_state sampleConfig missingAccountWorld draftState).2.2.1 offlineWorld
      ⟨"Account does not exist"⟩ ⟨"Network request failed"⟩ rfl rfl⟩

/-! ## Connecting the wallet -/

theorem checkIfWalletIsConnected_trace_no_wallet (w : World) (h : w.solana = none) :
    checkIfWalletIsConnected w =
      ⟨[.alert "Solana object not found! Get a Phantom Wallet 👻"], .ok ()⟩ := by
  simp [checkIfWalletIsConnected, h, Eff.tryCatch, Eff.emit]

theorem checkIfWalletIsConnected_trace_other_wallet (w : World) (wallet : Wallet)
    (h : w.solana = some wallet) (hp : wallet.isPhantom = false) :
    checkIfWalletIsConnected w = ⟨[], .ok ()⟩ := by
  simp [checkIfWalletIsConnected, h, hp, Eff.tryCatch, Eff.ret]

theorem checkIfWalletIsConnected_trace_trusted (w : World) (wallet : Wallet) (pk : PublicKey)
    (h : w.solana = some wallet) (hp : wallet.isPhantom = true)
    (hc : wallet.connectTrusted = .ok pk) :
    checkIfWalletIsConnected w =
      ⟨[.consoleLog [.str "Phantom wallet found!"], .walletConnect true,
        .consoleLog [.str "Connected with Public Key:", .str pk.toString],
        .setWalletAddress pk.toString], .ok ()⟩ := by
  simp [checkIfWalletIsConnected, h, hp, hc, Eff.tryCatch, Eff.andThen, Eff.emit, Eff.call]

theorem checkIfWalletIsConnected_trace_failed (w : World) (wallet : Wallet) (e : JsError)
    (h : w.solana = some wallet) (hp : wallet.isPhantom = true)
    (hc : wallet.connectTrusted = .error e) :
    checkIfWalletIsConnected w =
      ⟨[.consoleLog [.str "Phantom wallet found!"], .walletConnect true,
        .consoleError [.error e]], .ok ()⟩ := by
  simp [checkIfWalletIsConnected, h, hp, hc, Eff.tryCatch, Eff.andThen, Eff.emit, Eff.call]

/-- C7: `checkIfWalletIsConnected` always resolves.  When a Phantom wallet is present and
its trusted-only connect returns a public key, the only setter call is
`setWalletAddress` with the string form of that key; in every other case (no wallet
object, a wallet that is not Phantom, a connect that fails) no setter is called and the
state cells are unchanged.  `alert` is called once when there is no wallet object and not
at all otherwise. -/
theorem checkIfWalletIsConnected_spec (w : World) (s : State) :
    (∀ (wallet : Wallet) (pk : PublicKey), w.solana = some wallet →
      wallet.isPhantom = true → wallet.connectTrusted = .ok pk →
        (checkIfWalletIsConnected w).trace.filter Event.isSetter
          = [.setWalletAddress pk.toString] ∧
        stateAfter s (checkIfWalletIsConnected w).trace
          = { s with walletAddress := some pk.toString }) ∧
    ((¬ ∃ (wallet : Wallet) (pk : PublicKey), w.solana = some wallet ∧
        wallet.isPhantom = true ∧ wallet.connectTrusted = .ok pk) →
        (checkIfWalletIsConnected w).trace.filter Event.isSetter = [] ∧
        stateAfter s (checkIfWalletIsConnected w).trace = s) ∧
    (checkIfWalletIsConnected w).result = .ok () ∧
    ((checkIfWalletIsConnected w).trace.filter Event.isAlert).length
      = (if w.solana.isNone then 1 else 0) := by
  cases h : w.solana with
  | none =>
    rw [checkIfWalletIsConnected_trace_no_wallet w h]
    simp [Event.isSetter, Event.isAlert, stateAfter, applyEvent]
  | some wallet =>
    cases hp : wallet.isPhantom with
    | false =>
      rw [checkIfWalletIsConnected_trace_other_wallet w wallet h hp]
      refine ⟨?_, ?_, rfl, by simp⟩
      · intro wallet2 pk h2 hp2 _
        cases h2
        simp [hp] at hp2
      · intro _
        simp [stateAfter]
    | true =>
      cases hc : wallet.connectTrusted with
      | ok pk =>
        rw [checkIfWalletIsConnected_trace_trusted w wallet pk h hp hc]
        refine ⟨?_, ?_, rfl, by simp [Event.isAlert]⟩
        · intro wallet2 pk2 h2 _ hc2
          cases h2
          rw [hc] at hc2
          cases hc2
          simp [Event.isSetter, stateAfter, applyEvent]
        · intro hno
          exact absurd ⟨wallet, pk, rfl, hp, hc⟩ hno
      | error e =>
        rw [checkIfWalletIsConnected_trace_failed w wallet e h hp hc]
        refine ⟨?_, ?_, rfl, by simp [Event.isAlert]⟩
        · intro wallet2 pk2 h2 _ hc2
          cases h2
          rw [hc] at hc2
          cases hc2
        · intro _
          simp [Event.isSetter, stateAfter, applyEvent]

/-- A trusted Phantom wallet sets the session on load; a wallet that declines leaves the
initial state in place. -/
theorem checkIfWalletIsConnected_spec_witness :
    stateAfter initialState (checkIfWalletIsConnected healthyWorld).trace
      = { initialState with walletAddress := some "9xQe" } ∧
    stateAfter initialState (checkIfWalletIsConnected decliningWorld).trace = initialState :=
  ⟨((checkIfWalletIsConnected_spec healthyWorld initialState).1 trustedWallet ⟨"9xQe"⟩
      rfl rfl rfl).2,
   ((checkIfWalletIsConnected_spec decliningWorld initialState).2.1 (by
      rintro ⟨wallet, pk, h, -, hc⟩
      cases h
      cases hc)).2⟩

/-- C8 at a wallet whose user declines the prompt: `connectWallet` rejects with the error
of the connect call and writes nothing to the console, whereas
`checkIfWalletIsConnected` resolves and logs the error.  Both leave the state cells
unchanged. -/
theorem connectWallet_rejection_propagates :
    (connectWallet decliningWorld).result = .error ⟨"User rejected the request."⟩ ∧
    (connectWallet decliningWorld).trace = [.walletConnect false] ∧
    stateAfter initialState (connectWallet decliningWorld).trace = initialState ∧
    (checkIfWalletIsConnected decliningWorld).result = .ok () ∧
    (checkIfWalletIsConnected decliningWorld).trace.filter Event.isConsole =
      [.consoleLog [.str "Phantom wallet found!"],
       .consoleError [.error ⟨"User rejected the request."⟩]] ∧
    stateAfter initialState (checkIfWalletIsConnected decliningWorld).trace = initialState := by
  refine ⟨rfl, rfl, rfl, ?_, ?_, ?_⟩ <;>
    rw [checkIfWalletIsConnected_trace_failed decliningWorld decliningWallet
      ⟨"User rejected the request."⟩ rfl rfl rfl] <;>
    simp [Event.isConsole, stateAfter, applyEvent]

/-! ## Creating the account -/

theorem createGifAccount_trace_accepted (cfg : Config) (w : World) (wallet : Wallet)
    (h : w.solana = some wallet) (hc : w.startStuffOff = .ok ()) :
    ∃ logged : List LogArg,
      createGifAccount cfg w =
        ⟨[.newConnection cfg.network preflightCommitment, .newProvider preflightCommitment,
          .newProgram cfg.programID, .consoleLog [.str "ping"],
          .rpcStartStuffOff cfg.baseAccount.publicKey wallet.publicKey cfg.systemProgramId
            [cfg.baseAccount],
          .consoleLog [.str "Created a new BaseAccount w/ address:",
            .str cfg.baseAccount.publicKey.toString],
          .newConnection cfg.network preflightCommitment, .newProvider preflightCommitment,
          .newProgram cfg.programID, .accountFetch cfg.baseAccount.publicKey,
          .consoleLog logged, .setGifList (fetchedList w.fetch)], .ok ()⟩ := by
  obtain ⟨logged, hg⟩ := getGifList_trace_shape cfg w
  refine ⟨logged, ?_⟩
  simp [createGifAccount, hg, h, hc, getProvider, Eff.tryCatch, Eff.andThen, Eff.emit,
    Eff.call, Eff.ret]

theorem createGifAccount_trace_rejected (cfg : Config) (w : World) (wallet : Wallet) (e : JsError)
    (h : w.solana = some wallet) (hc : w.startStuffOff = .error e) :
    createGifAccount cfg w =
      ⟨[.newConnection cfg.network preflightCommitment, .newProvider preflightCommitment,
        .newProgram cfg.programID, .consoleLog [.str "ping"],
        .rpcStartStuffOff cfg.baseAccount.publicKey wallet.publicKey cfg.systemProgramId
          [cfg.baseAccount],
        .consoleLog [.str "Error creating BaseAccount account:", .error e]], .ok ()⟩ := by
  simp [createGifAccount, h, hc, getProvider, Eff.tryCatch, Eff.andThen, Eff.emit,
    Eff.call, Eff.ret]

theorem createGifAccount_trace_no_wallet (cfg : Config) (w : World) (h : w.solana = none) :
    createGifAccount cfg w =
      ⟨[.newConnection cfg.network preflightCommitment, .newProvider preflightCommitment,
        .newProgram cfg.programID, .consoleLog [.str "ping"],
        .consoleLog [.str "Error creating BaseAccount account:",
          .error (typeError "publicKey")]], .ok ()⟩ := by
  simp [createGifAccount, h, getProvider, Eff.tryCatch, Eff.andThen, Eff.emit, Eff.raise,
    Eff.ret]

/-- C9: `createGifAccount` resolves in every case.  With a wallet object present, its
remote calls start with exactly one `startStuffOff` call whose accounts are the fixed base
account, the public key of the wallet as `user` and the system program, and whose signers
are exactly the fixed key pair; when the call is accepted exactly one account read follows
and `gifList` becomes what it produced; when the call is rejected no account read is made
and no setter is called, so the state is unchanged. -/
theorem createGifAccount_spec (cfg : Config) (w : World) (s : State) :
    (createGifAccount cfg w).result = .ok () ∧
    ∀ wallet : Wallet, w.solana = some wallet →
      remoteCalls (createGifAccount cfg w).trace =
        .rpcStartStuffOff cfg.baseAccount.publicKey wallet.publicKey cfg.systemProgramId
            [cfg.baseAccount] ::
          (match w.startStuffOff with
           | .ok _ => [.accountFetch cfg.baseAccount.publicKey]
           | .error _ => []) ∧
      (w.startStuffOff = .ok () →
        stateAfter s (createGifAccount cfg w).trace
          = { s with gifList := fetchedList w.fetch }) ∧
      (∀ e : JsError, w.startStuffOff = .error e →
        (createGifAccount cfg w).trace.filter Event.isSetter = [] ∧
        stateAfter s (createGifAccount cfg w).trace = s) := by
  cases h : w.solana with
  | none =>
    rw [createGifAccount_trace_no_wallet cfg w h]
    exact ⟨rfl, fun wallet hw => by cases hw⟩
  | some present =>
    cases hc : w.startStuffOff with
    | ok u =>
      obtain ⟨logged, hs⟩ := createGifAccount_trace_accepted cfg w present h hc
      rw [hs]
      refine ⟨rfl, ?_⟩
      intro wallet hw
      cases hw
      simp [remoteCalls, Event.isRemoteCall, stateAfter, applyEvent]
    | error e =>
      rw [createGifAccount_trace_rejected cfg w present e h hc]
      refine ⟨rfl, ?_⟩
      intro wallet hw
      cases hw
      simp [remoteCalls, Event.isRemoteCall, Event.isSetter, stateAfter, applyEvent]

/-- Creating the account in a healthy world is followed by one read that fills the list;
a rejected creation leaves the state as it was. -/
theorem createGifAccount_spec_witness :
    remoteCalls (createGifAccount sampleConfig healthyWorld).trace =
      [.rpcStartStuffOff ⟨"BaseAcc"⟩ (some ⟨"9xQe"⟩) ⟨"11111111111111111111111111111111"⟩
         [sampleConfig.baseAccount],
       .accountFetch ⟨"BaseAcc"⟩] ∧
    stateAfter ⟨some "9xQe", "", none⟩ (createGifAccount sampleConfig healthyWorld).trace =
      ⟨some "9xQe", "", some [⟨"a.gif"⟩, ⟨"b.gif"⟩]⟩ ∧
    stateAfter ⟨some "9xQe", "", none⟩ (createGifAccount sampleConfig rejectingWorld).trace =
      ⟨some "9xQe", "", none⟩ :=
  ⟨((createGifAccount_spec sampleConfig healthyWorld ⟨some "9xQe", "", none⟩).2
      trustedWallet rfl).1,
   ((createGifAccount_spec sampleConfig healthyWorld ⟨some "9xQe", "", none⟩).2
      trustedWallet rfl).2.1 rfl,
   (((createGifAccount_spec sampleConfig rejectingWorld ⟨some "9xQe", "", none⟩).2
      trustedWallet rfl).2.2 ⟨"Transaction simulation failed"⟩ rfl).2⟩

end App
